import Mathlib

/-!
Verification of the Electricity Carbon Footprint Calculator (src/app.py)
against its natural-language specification.

Numbers are modelled as exact rationals; Python `round` (banker
rounding, half to even) is modelled by `rhe`/`round1`/`round2`.
All concrete witness inputs used below were chosen away from binary
floating-point representation edge cases, so the rational model and the
Python float implementation agree at every witness.
-/

namespace CarbonTool

/-- Round a rational to the nearest integer, ties to even: the semantics of
Python `round(x)`. -/
def rhe (q : ℚ) : ℤ :=
  if Int.fract q < 1/2 then ⌊q⌋
  else if 1/2 < Int.fract q then ⌊q⌋ + 1
  else if ⌊q⌋ % 2 = 0 then ⌊q⌋ else ⌊q⌋ + 1

/-- Python `round(x, 2)`. -/
def round2 (q : ℚ) : ℚ := (rhe (q * 100) : ℚ) / 100

/-- Python `round(x, 1)`. -/
def round1 (q : ℚ) : ℚ := (rhe (q * 10) : ℚ) / 10

/-- `EMISSION_FACTOR = 0.82`, kg CO2 per kWh (src/app.py line 24). -/
def EMISSION_FACTOR : ℚ := 82 / 100

/-- `MONTHS_PER_YEAR = 12` (src/app.py line 25). -/
def MONTHS_PER_YEAR : ℚ := 12

/-- The dict returned by `calculate_carbon_footprint`. -/
structure FootprintResult where
  annual_usage : ℚ
  annual_emissions : ℚ
  trees_needed : ℚ
  car_miles : ℤ
deriving DecidableEq, Repr

/-- `calculate_carbon_footprint` (src/app.py lines 27-55): the annual
emissions, trees and car miles are computed from the UNROUNDED
intermediates; rounding to 2 decimals happens only when the dict is
assembled. -/
def calculate_carbon_footprint (monthly_usage_kwh : ℚ) : FootprintResult :=
  let annual_usage := monthly_usage_kwh * MONTHS_PER_YEAR
  let annual_emissions := annual_usage * EMISSION_FACTOR
  let trees_needed := round1 (annual_emissions / 22)
  let car_miles := rhe (annual_emissions * (23/10))
  { annual_usage := round2 annual_usage
    annual_emissions := round2 annual_emissions
    trees_needed := trees_needed
    car_miles := car_miles }

/-- Responses of the `/calculate` request handler: either the input form
re-rendered with an inline error message, or the result page. -/
inductive CalcResponse where
  | errorForm (message : String)
  | resultPage (user_type : String) (monthly_usage : ℚ) (results : FootprintResult)
deriving DecidableEq, Repr

/-- True exactly when the handler re-rendered the input form with an
error message. -/
def isErrorForm : CalcResponse → Bool
  | .errorForm _ => true
  | _ => false

/-- Validation and calculation of the `/calculate` handler after the
usage value has been obtained: Python `not user_type` is true for an
absent field and for the empty string; a negative usage is rejected with
the same message; otherwise the footprint is computed and the result page
rendered (src/app.py lines 71-91). -/
def validateAndCompute (user_type : Option String) (m : ℚ) : CalcResponse :=
  match user_type with
  | none => .errorForm "Please provide valid inputs"
  | some ut =>
    if ut.isEmpty ∨ m < 0 then .errorForm "Please provide valid inputs"
    else .resultPage ut m (calculate_carbon_footprint m)

/-- The `/calculate` request handler (src/app.py lines 64-96). The raw
monthly_usage form field is modelled as parsed: `none` means the field is
absent, in which case the source substitutes the default 0
(`request.form.get('monthly_usage', 0)`); `some none` means the field is
present but `float()` raises ValueError, caught and answered with the
distinct message of line 94; `some (some m)` means it parses to `m`. -/
def calculate (user_type : Option String) (monthly_usage : Option (Option ℚ)) :
    CalcResponse :=
  match monthly_usage with
  | some none => .errorForm "Please enter a valid number for monthly usage"
  | some (some m) => validateAndCompute user_type m
  | none => validateAndCompute user_type 0

/-- The generic-exception branch of `/calculate` (src/app.py lines 95-96):
the form is re-rendered with a fixed message; the exception detail `e` is
not used. -/
def calculate_on_error (e : String) : CalcResponse :=
  .errorForm "An error occurred during calculation"

/-- The exception branch of `/download_pdf` (src/app.py lines 131-132): a
plain-text body embedding `str(e)`, paired with HTTP status 500 — not a
re-rendered form. -/
def download_pdf_on_error (e : String) : String × ℕ :=
  ("Error generating PDF: " ++ e, 500)

/-- Calendar date, the value read from `datetime.now()`. -/
structure Date where
  month : ℕ
  day : ℕ
  year : ℕ
deriving DecidableEq, Repr

/-- English month name, as produced by strftime `%B`. -/
def monthName : ℕ → String
  | 1 => "January"
  | 2 => "February"
  | 3 => "March"
  | 4 => "April"
  | 5 => "May"
  | 6 => "June"
  | 7 => "July"
  | 8 => "August"
  | 9 => "September"
  | 10 => "October"
  | 11 => "November"
  | 12 => "December"
  | _ => ""

/-- Two-digit zero-padded day, as produced by strftime `%d`. -/
def pad2 (n : ℕ) : String := if n < 10 then "0" ++ toString n else toString n

/-- strftime `"%B %d, %Y"` (src/app.py line 172). -/
def formatDate (d : Date) : String :=
  monthName d.month ++ " " ++ pad2 d.day ++ ", " ++ toString d.year

/-- A layout block handed to the document-rendering backend: a styled
paragraph, a spacer, or a table of rows of cells. Visual styling details
(colors, column widths, paddings) are presentation attributes of the
rendering library and are not part of the block content. -/
inductive Block where
  | para (text : String) (style : String)
  | spacer (width height : ℕ)
  | table (rows : List (List String))
deriving DecidableEq, Repr

/-- The kind of a block: its constructor, and for a paragraph also its
style name. -/
def blockTag : Block → String
  | .para _ s => "para:" ++ s
  | .spacer _ _ => "spacer"
  | .table _ => "table"

/-- The request data handed to `generate_pdf_report` by `/download_pdf`
(src/app.py lines 116-121): user type, monthly usage, and the
client-echoed annual usage and annual emissions. -/
structure ReportData where
  user_type : String
  monthly_usage : ℚ
  annual_usage : ℚ
  annual_emissions : ℚ
deriving DecidableEq, Repr

/-- Stand-in for Python number-to-string interpolation inside f-strings.
No claim below depends on the exact decimal rendering, only on which
value is rendered, so the canonical rational rendering is used. -/
def fmtNum (q : ℚ) : String := toString q

/-- Stand-in for Python integer interpolation (including the
thousands-separated form). No claim depends on the exact rendering. -/
def fmtInt (n : ℤ) : String := toString n

/-- Trees metric as recomputed in the document-generation path from the
annual emissions figure it receives (src/app.py line 227, duplicated
literal 22). -/
def pdf_trees_needed (annual_emissions : ℚ) : ℚ := round1 (annual_emissions / 22)

/-- Car-miles metric as recomputed in the document-generation path from
the annual emissions figure it receives (src/app.py line 228, duplicated
literal 2.3). -/
def pdf_car_miles (annual_emissions : ℚ) : ℤ := rhe (annual_emissions * (23/10))

/-- The seven conservation recommendations (src/app.py lines 254-262),
verbatim and order-preserving. -/
def recommendationItems : List String :=
  [ "• Switch to LED light bulbs to reduce electricity consumption"
  , "• Use energy-efficient appliances (5-star rated)"
  , "• Install solar panels if feasible"
  , "• Unplug devices when not in use"
  , "• Use natural light during daytime"
  , "• Set AC temperature to 24°C or higher"
  , "• Regular maintenance of electrical appliances" ]

/-- The footer disclaimer text (src/app.py lines 267-275). -/
def footerText : String :=
  "This report was generated by the Electricity Carbon Footprint Calculator<br/>" ++
  "Data based on India\x27s electricity emission factor of 0.82 kg CO₂/kWh<br/>" ++
  "For more information on reducing your carbon footprint, consult environmental agencies."

/-- The ordered block content built by `generate_pdf_report`
(src/app.py lines 134-279). The source reads the current date via
`datetime.now()` INSIDE the function (line 172); that hidden clock read
is modelled as the explicit `now` parameter. Writing the built document
to a file (`doc.build`) is I/O outside the model. -/
def generate_pdf_report (now : Date) (data : ReportData) : List Block :=
  let report_date := formatDate now
  let input_data : List (List String) :=
    [ ["Parameter", "Value"]
    , ["User Type", data.user_type]
    , ["Monthly Electricity Usage", fmtNum data.monthly_usage ++ " kWh"]
    , ["Annual Electricity Usage", fmtNum data.annual_usage ++ " kWh"] ]
  let trees_needed := pdf_trees_needed data.annual_emissions
  let car_miles := pdf_car_miles data.annual_emissions
  let impact_data : List (List String) :=
    [ ["Impact Metric", "Equivalent"]
    , ["Trees needed to offset emissions", fmtNum trees_needed ++ " trees per year"]
    , ["Equivalent car miles driven", fmtInt car_miles ++ " miles"]
    , ["Monthly average", fmtNum (round1 (data.annual_emissions / 12)) ++ " kg CO₂"] ]
  [ .para "🌱 Electricity Carbon Footprint Report" "CustomTitle"
  , .spacer 1 20
  , .para ("<b>Report Generated:</b> " ++ report_date) "Normal"
  , .spacer 1 20
  , .para "Input Details" "CustomHeading"
  , .table input_data
  , .spacer 1 30
  , .para "Carbon Footprint Results" "CustomHeading"
  , .para ("<para align=center><b><font size=18 color=red>Annual CO₂ Emissions: " ++
      fmtNum data.annual_emissions ++ " kg</font></b></para>") "Normal"
  , .spacer 1 20
  , .para "Calculation Method" "CustomHeading"
  , .para ("<b>Formula:</b> Annual CO₂ Emission = Monthly Usage × 12 × Emission Factor<br/>" ++
      "<b>Emission Factor (India):</b> " ++ fmtNum EMISSION_FACTOR ++ " kg CO₂ per kWh<br/>" ++
      "<b>Calculation:</b> " ++ fmtNum data.monthly_usage ++ " kWh × 12 × " ++
      fmtNum EMISSION_FACTOR ++ " = " ++ fmtNum data.annual_emissions ++ " kg CO₂") "Normal"
  , .spacer 1 30
  , .para "Environmental Impact Context" "CustomHeading"
  , .table impact_data
  , .spacer 1 30
  , .para "Recommendations to Reduce Carbon Footprint" "CustomHeading"
  , .para (String.intercalate "<br/>" recommendationItems) "Normal"
  , .spacer 1 30
  , .para footerText "Normal" ]

/-- A concrete report-data record, used by counterexample theorems. -/
def sampleReportData : ReportData :=
  { user_type := "Residential", monthly_usage := 300
  , annual_usage := 3600, annual_emissions := 2952 }

/-- Evaluation of `rhe` on the lower half of an interval: any rational in
the interval from `n` (inclusive) to `n + 1/2` (exclusive) rounds to `n`. -/
lemma rhe_eq_down (q : ℚ) (n : ℤ) (h1 : (n:ℚ) ≤ q) (h2 : q < (n:ℚ) + 1/2) :
    rhe q = n := by
  have hf : ⌊q⌋ = n := Int.floor_eq_iff.mpr ⟨h1, by linarith⟩
  have hfr : Int.fract q < 1/2 := by
    rw [Int.fract, hf]; linarith
  simp only [rhe]
  rw [if_pos hfr, hf]

/-- Evaluation of `rhe` on the upper half of an interval: any rational in
the interval from `n - 1/2` (exclusive) to `n` (inclusive) rounds to `n`. -/
lemma rhe_eq_up (q : ℚ) (n : ℤ) (h1 : (n:ℚ) - 1/2 < q) (h2 : q ≤ (n:ℚ)) :
    rhe q = n := by
  rcases eq_or_lt_of_le h2 with heq | hlt
  · have hf : ⌊q⌋ = n := by rw [heq, Int.floor_intCast]
    have hfr : Int.fract q < 1/2 := by
      rw [Int.fract, hf, heq]; norm_num
    simp only [rhe]
    rw [if_pos hfr, hf]
  · have hf : ⌊q⌋ = n - 1 := by
      apply Int.floor_eq_iff.mpr
      constructor
      · push_cast; linarith
      · push_cast; linarith
    have hfr : 1/2 < Int.fract q := by
      rw [Int.fract, hf]; push_cast; linarith
    have hnlt : ¬ Int.fract q < 1/2 := not_lt.mpr (le_of_lt hfr)
    simp only [rhe]
    rw [if_neg hnlt, if_pos hfr, hf]
    omega

/-- The four fields of the result, with all constants unfolded, as direct
applications of `rhe`. Holds by definitional unfolding. -/
lemma cf_fields (m : ℚ) :
    calculate_carbon_footprint m =
      { annual_usage := (rhe (m * 12 * 100) : ℚ) / 100
        annual_emissions := (rhe (m * 12 * (82/100) * 100) : ℚ) / 100
        trees_needed := (rhe (m * 12 * (82/100) / 22 * 10) : ℚ) / 10
        car_miles := rhe (m * 12 * (82/100) * (23/10)) } := rfl

/-- Shared evaluation: monthly usage 0 gives the all-zero result. -/
lemma cf_zero :
    calculate_carbon_footprint 0 =
      { annual_usage := 0, annual_emissions := 0, trees_needed := 0, car_miles := 0 } := by
  rw [cf_fields]
  have h1 : rhe ((0:ℚ) * 12 * 100) = 0 := rhe_eq_down _ 0 (by norm_num) (by norm_num)
  have h2 : rhe ((0:ℚ) * 12 * (82/100) * 100) = 0 := rhe_eq_down _ 0 (by norm_num) (by norm_num)
  have h3 : rhe ((0:ℚ) * 12 * (82/100) / 22 * 10) = 0 := rhe_eq_down _ 0 (by norm_num) (by norm_num)
  have h4 : rhe ((0:ℚ) * 12 * (82/100) * (23/10)) = 0 := rhe_eq_down _ 0 (by norm_num) (by norm_num)
  rw [h1, h2, h3, h4]
  norm_num

/-- Shared evaluation: at monthly usage 300 the unrounded annual emissions
2952 is already exact at 2 decimals, so rounding it is the identity. -/
lemma round2_fixed_at_300 :
    round2 ((300:ℚ) * 12 * (82/100)) = (300:ℚ) * 12 * (82/100) := by
  have h : rhe ((300:ℚ) * 12 * (82/100) * 100) = 295200 :=
    rhe_eq_down _ _ (by norm_num) (by norm_num)
  rw [round2, h]
  norm_num

/-- C8: monthly usage 0 gives all four derived metrics equal to 0. -/
theorem C8_zero_input_all_zero :
    calculate_carbon_footprint 0 =
      { annual_usage := 0, annual_emissions := 0, trees_needed := 0, car_miles := 0 } :=
  cf_zero

/-- C9: the two reference scenarios, monthly usage 300 and 150.5, reproduce
the specified outputs exactly. -/
theorem C9_reference_scenarios :
    calculate_carbon_footprint 300 =
      { annual_usage := 3600, annual_emissions := 2952,
        trees_needed := 134.2, car_miles := 6790 } ∧
    calculate_carbon_footprint 150.5 =
      { annual_usage := 1806, annual_emissions := 1480.92,
        trees_needed := 67.3, car_miles := 3406 } := by
  constructor
  · rw [cf_fields]
    have h1 : rhe ((300:ℚ) * 12 * 100) = 360000 :=
      rhe_eq_down _ _ (by norm_num) (by norm_num)
    have h2 : rhe ((300:ℚ) * 12 * (82/100) * 100) = 295200 :=
      rhe_eq_down _ _ (by norm_num) (by norm_num)
    have h3 : rhe ((300:ℚ) * 12 * (82/100) / 22 * 10) = 1342 :=
      rhe_eq_up _ _ (by norm_num) (by norm_num)
    have h4 : rhe ((300:ℚ) * 12 * (82/100) * (23/10)) = 6790 :=
      rhe_eq_up _ _ (by norm_num) (by norm_num)
    rw [h1, h2, h3, h4]
    norm_num
  · rw [cf_fields]
    have h1 : rhe ((150.5:ℚ) * 12 * 100) = 180600 :=
      rhe_eq_down _ _ (by norm_num) (by norm_num)
    have h2 : rhe ((150.5:ℚ) * 12 * (82/100) * 100) = 148092 :=
      rhe_eq_down _ _ (by norm_num) (by norm_num)
    have h3 : rhe ((150.5:ℚ) * 12 * (82/100) / 22 * 10) = 673 :=
      rhe_eq_down _ _ (by norm_num) (by norm_num)
    have h4 : rhe ((150.5:ℚ) * 12 * (82/100) * (23/10)) = 3406 :=
      rhe_eq_down _ _ (by norm_num) (by norm_num)
    rw [h1, h2, h3, h4]
    norm_num

/-- C1 counterexample: at monthly usage 0.033 the code returns annual
emissions 0.32 (one rounding, applied after the full product), while the
claimed order, rounding the annual usage to 2 decimals BEFORE multiplying
by the emission factor, gives 0.33. -/
theorem C1_counterexample :
    (calculate_carbon_footprint 0.033).annual_emissions = 0.32 ∧
    round2 (round2 (0.033 * 12) * (82/100)) = 0.33 ∧
    (calculate_carbon_footprint 0.033).annual_emissions ≠
      round2 (round2 (0.033 * 12) * (82/100)) := by
  have hcode : (calculate_carbon_footprint 0.033).annual_emissions = 0.32 := by
    rw [cf_fields]
    have h : rhe ((0.033:ℚ) * 12 * (82/100) * 100) = 32 :=
      rhe_eq_down _ _ (by norm_num) (by norm_num)
    simp only [h]
    norm_num
  have hspec : round2 (round2 ((0.033:ℚ) * 12) * (82/100)) = 0.33 := by
    have hin : rhe ((0.033:ℚ) * 12 * 100) = 40 :=
      rhe_eq_up _ _ (by norm_num) (by norm_num)
    rw [round2, round2, hin]
    have hout : rhe (((40:ℤ):ℚ) / 100 * (82/100) * 100) = 33 :=
      rhe_eq_up _ _ (by norm_num) (by norm_num)
    rw [hout]
    norm_num
  refine ⟨hcode, hspec, ?_⟩
  rw [hcode, hspec]
  norm_num

/-- C1 amended: for every nonnegative monthly usage, the returned annual
usage is round2 (m * 12), and the returned annual emissions is
round2 (m * 12 * 0.82), i.e. the 2-decimal rounding is applied AFTER the
multiplication by the emission factor, not before it. -/
theorem C1_amended_rounding_after_product (m : ℚ) (h : 0 ≤ m) :
    (calculate_carbon_footprint m).annual_usage = round2 (m * 12) ∧
    (calculate_carbon_footprint m).annual_emissions = round2 (m * 12 * (82/100)) :=
  ⟨rfl, rfl⟩

/-- Witness for C1_amended_rounding_after_product at monthly usage 3. -/
theorem C1_amended_witness :
    (0:ℚ) ≤ 3 ∧
    ((calculate_carbon_footprint 3).annual_usage = round2 (3 * 12) ∧
     (calculate_carbon_footprint 3).annual_emissions = round2 (3 * 12 * (82/100))) :=
  ⟨by norm_num, C1_amended_rounding_after_product 3 (by norm_num)⟩

/-- C2 counterexample: at monthly usage 0.022 the code returns car miles 0,
computed from the UNROUNDED annual emissions 0.21648, while deriving from
the already-2-decimal-rounded annual emissions field (0.22), as the claim
states, gives 1. -/
theorem C2_counterexample :
    (calculate_carbon_footprint 0.022).car_miles = 0 ∧
    rhe ((calculate_carbon_footprint 0.022).annual_emissions * (23/10)) = 1 ∧
    (calculate_carbon_footprint 0.022).car_miles ≠
      rhe ((calculate_carbon_footprint 0.022).annual_emissions * (23/10)) := by
  have hfield : (calculate_carbon_footprint 0.022).annual_emissions = 22/100 := by
    rw [cf_fields]
    have h : rhe ((0.022:ℚ) * 12 * (82/100) * 100) = 22 :=
      rhe_eq_up _ _ (by norm_num) (by norm_num)
    simp only [h]
    norm_num
  have hcode : (calculate_carbon_footprint 0.022).car_miles = 0 := by
    rw [cf_fields]
    exact rhe_eq_down _ _ (by norm_num) (by norm_num)
  have hclaim : rhe ((calculate_carbon_footprint 0.022).annual_emissions * (23/10)) = 1 := by
    rw [hfield]
    exact rhe_eq_up _ _ (by norm_num) (by norm_num)
  refine ⟨hcode, hclaim, ?_⟩
  rw [hcode, hclaim]
  norm_num

/-- C2 amended: the equivalence metrics are derived from the UNROUNDED
annual emissions m * 12 * 0.82 (src/app.py lines 45 and 48 run before the
2-decimal rounding at lines 51-52), not from the rounded
annual_emissions field. -/
theorem C2_amended_metrics_from_unrounded (m : ℚ) (h : 0 ≤ m) :
    (calculate_carbon_footprint m).trees_needed = round1 (m * 12 * (82/100) / 22) ∧
    (calculate_carbon_footprint m).car_miles = rhe (m * 12 * (82/100) * (23/10)) :=
  ⟨rfl, rfl⟩

/-- Witness for C2_amended_metrics_from_unrounded at monthly usage 300. -/
theorem C2_amended_witness :
    (0:ℚ) ≤ 300 ∧
    ((calculate_carbon_footprint 300).trees_needed = round1 (300 * 12 * (82/100) / 22) ∧
     (calculate_carbon_footprint 300).car_miles = rhe (300 * 12 * (82/100) * (23/10))) :=
  ⟨by norm_num, C2_amended_metrics_from_unrounded 300 (by norm_num)⟩

/-- C3 counterexample: a POST with user_type Residential and NO
monthly_usage field is not answered with a validation error: the handler
substitutes the default 0 and renders the result page. -/
theorem C3_counterexample :
    isErrorForm (calculate (some "Residential") none) = false ∧
    calculate (some "Residential") none =
      .resultPage "Residential" 0
        { annual_usage := 0, annual_emissions := 0, trees_needed := 0, car_miles := 0 } := by
  constructor
  · rfl
  · show validateAndCompute (some "Residential") 0 = _
    rw [validateAndCompute]
    rw [if_neg]
    · rw [cf_zero]
    · simp only [Bool.not_eq_true, not_or, not_lt]
      exact ⟨rfl, le_refl 0⟩

/-- C3 amended: a negative usage value, a non-numeric usage string, or a
missing or empty user_type yields a validation error (a re-rendered form
with an inline message) and no footprint is computed; a missing usage
value, however, is NOT a validation error: it defaults to 0 and succeeds. -/
theorem C3_amended_validation_errors (ut : Option String) (mu : Option (Option ℚ))
    (q : ℚ) (hq : q < 0) :
    isErrorForm (calculate ut (some (some q))) = true ∧
    isErrorForm (calculate ut (some none)) = true ∧
    isErrorForm (calculate none mu) = true ∧
    isErrorForm (calculate (some "") mu) = true := by
  refine ⟨?_, ?_, ?_, ?_⟩
  · cases ut with
    | none => rfl
    | some s =>
      show isErrorForm (validateAndCompute (some s) q) = true
      rw [validateAndCompute, if_pos (Or.inr hq)]
      rfl
  · rfl
  · cases mu with
    | none => rfl
    | some p => cases p with
      | none => rfl
      | some m => rfl
  · cases mu with
    | none =>
      show isErrorForm (validateAndCompute (some "") 0) = true
      rw [validateAndCompute, if_pos (Or.inl (show "".isEmpty = true from rfl))]
      rfl
    | some p => cases p with
      | none => rfl
      | some m =>
        show isErrorForm (validateAndCompute (some "") m) = true
        rw [validateAndCompute, if_pos (Or.inl (show "".isEmpty = true from rfl))]
        rfl

/-- Witness for C3_amended_validation_errors at user_type Residential,
an absent usage field, and usage -1. -/
theorem C3_amended_witness :
    (-1:ℚ) < 0 ∧
    (isErrorForm (calculate (some "Residential") (some (some (-1)))) = true ∧
     isErrorForm (calculate (some "Residential") (some none)) = true ∧
     isErrorForm (calculate none none) = true ∧
     isErrorForm (calculate (some "") none) = true) :=
  ⟨by norm_num, C3_amended_validation_errors (some "Residential") none (-1) (by norm_num)⟩

/-- C4 counterexample: at monthly usage 0.42 the Calculator returns car
miles 10 (from the unrounded annual emissions 4.1328), while the
document-generation path, fed the rounded annual emissions field 4.13 by
the download form, recomputes car miles 9: the two paths diverge on the
same request. -/
theorem C4_counterexample :
    (calculate_carbon_footprint 0.42).car_miles = 10 ∧
    pdf_car_miles ((calculate_carbon_footprint 0.42).annual_emissions) = 9 ∧
    pdf_car_miles ((calculate_carbon_footprint 0.42).annual_emissions) ≠
      (calculate_carbon_footprint 0.42).car_miles := by
  have hfield : (calculate_carbon_footprint 0.42).annual_emissions = 413/100 := by
    rw [cf_fields]
    have h : rhe ((0.42:ℚ) * 12 * (82/100) * 100) = 413 :=
      rhe_eq_down _ _ (by norm_num) (by norm_num)
    simp only [h]
    norm_num
  have hcode : (calculate_carbon_footprint 0.42).car_miles = 10 := by
    rw [cf_fields]
    exact rhe_eq_up _ _ (by norm_num) (by norm_num)
  have hpdf : pdf_car_miles ((calculate_carbon_footprint 0.42).annual_emissions) = 9 := by
    rw [hfield, pdf_car_miles]
    exact rhe_eq_down _ _ (by norm_num) (by norm_num)
  refine ⟨hcode, hpdf, ?_⟩
  rw [hcode, hpdf]
  norm_num

/-- C4 amended: both paths apply the identical formulas (constants 22 and
2.3) to the emissions figure they are given, but the document path
receives the 2-decimal-ROUNDED annual emissions while the Calculator
derives its metrics from the UNROUNDED value, so the two can diverge;
they agree whenever rounding the unrounded annual emissions to 2 decimals
is the identity. -/
theorem C4_amended_agree_when_exact (m : ℚ)
    (h : round2 (m * 12 * (82/100)) = m * 12 * (82/100)) :
    pdf_trees_needed ((calculate_carbon_footprint m).annual_emissions) =
      (calculate_carbon_footprint m).trees_needed ∧
    pdf_car_miles ((calculate_carbon_footprint m).annual_emissions) =
      (calculate_carbon_footprint m).car_miles := by
  have hae : (calculate_carbon_footprint m).annual_emissions = m * 12 * (82/100) := h
  constructor
  · rw [hae]
    rfl
  · rw [hae]
    rfl

/-- Witness for C4_amended_agree_when_exact at monthly usage 300, whose
annual emissions 2952 is exact at 2 decimals. -/
theorem C4_amended_witness :
    round2 ((300:ℚ) * 12 * (82/100)) = (300:ℚ) * 12 * (82/100) ∧
    (pdf_trees_needed ((calculate_carbon_footprint 300).annual_emissions) =
       (calculate_carbon_footprint 300).trees_needed ∧
     pdf_car_miles ((calculate_carbon_footprint 300).annual_emissions) =
       (calculate_carbon_footprint 300).car_miles) :=
  ⟨round2_fixed_at_300, C4_amended_agree_when_exact 300 round2_fixed_at_300⟩

/-- C5 counterexample: two runs of generate_pdf_report with IDENTICAL
input data but different clock dates produce different block content: the
generation date is read from the system clock inside the function, not
supplied as an argument. -/
theorem C5_counterexample :
    generate_pdf_report { month := 1, day := 1, year := 2025 } sampleReportData ≠
      generate_pdf_report { month := 1, day := 2, year := 2025 } sampleReportData := by
  intro h
  have h2 : (generate_pdf_report { month := 1, day := 1, year := 2025 } sampleReportData).get? 2 =
      (generate_pdf_report { month := 1, day := 2, year := 2025 } sampleReportData).get? 2 := by
    rw [h]
  exact absurd h2 (by decide)

/-- C5 amended: the block content is a deterministic function of the input
data and of the date read from the clock at generation time; every block
except the generation-date line (the block at index 2) is independent of
the clock, and the date line is exactly the formatted clock date. -/
theorem C5_amended_only_date_line_varies (data : ReportData) (n₁ n₂ : Date) :
    (generate_pdf_report n₁ data).eraseIdx 2 = (generate_pdf_report n₂ data).eraseIdx 2 ∧
    (generate_pdf_report n₁ data).get? 2 =
      some (.para ("<b>Report Generated:</b> " ++ formatDate n₁) "Normal") :=
  ⟨rfl, rfl⟩

/-- C6: the report always consists of the same 20 blocks in the same
order — title, spacer, generation-date line, spacer, Input Details
heading, input table, spacer, results heading, emissions highlight,
spacer, Calculation Method heading and body, spacer, Environmental Impact
heading, impact table, spacer, recommendations heading and seven-item
list, spacer, footer — independent of the input values; and the
recommendations list has exactly 7 items. -/
theorem C6_fixed_block_shape (data : ReportData) (now : Date) :
    (generate_pdf_report now data).map blockTag =
      [ "para:CustomTitle", "spacer", "para:Normal", "spacer"
      , "para:CustomHeading", "table", "spacer"
      , "para:CustomHeading", "para:Normal", "spacer"
      , "para:CustomHeading", "para:Normal", "spacer"
      , "para:CustomHeading", "table", "spacer"
      , "para:CustomHeading", "para:Normal", "spacer"
      , "para:Normal" ] ∧
    recommendationItems.length = 7 :=
  ⟨rfl, rfl⟩

/-- C7 counterexample: the `/download_pdf` failure response embeds the
exception detail str(e) in its body, so it is not free of internal
detail: two different internal failures produce two different responses. -/
theorem C7_counterexample :
    (download_pdf_on_error "division by zero").1 =
      "Error generating PDF: division by zero" ∧
    download_pdf_on_error "division by zero" ≠ download_pdf_on_error "file error" :=
  ⟨rfl, by decide⟩

/-- C7 amended: an unanticipated failure on `/calculate` is answered with
a fixed generic message independent of the exception detail; a failure on
`/download_pdf` is answered with a distinct HTTP-500 plain response (not a
re-rendered form), but its body embeds the exception message str(e). -/
theorem C7_amended_download_leaks_detail (e₁ e₂ : String) :
    calculate_on_error e₁ = calculate_on_error e₂ ∧
    calculate_on_error e₁ = .errorForm "An error occurred during calculation" ∧
    (download_pdf_on_error e₁).2 = 500 ∧
    (download_pdf_on_error e₁).1 = "Error generating PDF: " ++ e₁ :=
  ⟨rfl, rfl, rfl, rfl⟩

/-- C10: when the monthly_usage form field is entirely absent, the handler
substitutes the default 0, validation passes for a non-empty user_type,
and the result page with the all-zero metrics is returned. -/
theorem C10_missing_usage_defaults_to_zero (ut : String) (h : ut.isEmpty = false) :
    calculate (some ut) none =
      .resultPage ut 0
        { annual_usage := 0, annual_emissions := 0, trees_needed := 0, car_miles := 0 } := by
  show validateAndCompute (some ut) 0 = _
  rw [validateAndCompute, if_neg, cf_zero]
  rw [h]
  simp

/-- Witness for C10_missing_usage_defaults_to_zero at user_type Household. -/
theorem C10_witness :
    "Household".isEmpty = false ∧
    calculate (some "Household") none =
      .resultPage "Household" 0
        { annual_usage := 0, annual_emissions := 0, trees_needed := 0, car_miles := 0 } :=
  ⟨rfl, C10_missing_usage_defaults_to_zero "Household" rfl⟩

end CarbonTool
